import Mathlib

/-!
Verification of the access & rendering gateway of `sealable` (src/src/pages.rs).

The data model and the three request handlers (`view_paste_request`,
`editor_request`, `config_editor_request`) are translated from the source.
External collaborators that the source only calls (the `pastemd` `Database`,
the `sauropod` markdown renderer, `serde_json` serialization) are modelled
from the spec's collaborator contracts, as marked on each definition.
-/

namespace Sealable

/-- Paste metadata: `title` (empty means "use identifier as title") and
`view_password` (empty means "no password set"), as in the spec's data model
and used by the handlers in pages.rs. -/
structure PasteMetadata where
  title : String
  view_password : String
  deriving Repr, DecidableEq

/-- A paste: identifier `url`, raw `content`, and its metadata. -/
structure Paste where
  url : String
  content : String
  metadata : PasteMetadata
  deriving Repr, DecidableEq

/-- Modelled from the spec: the external `pastemd` `Database` collaborator
(spec section 6), which src/src/pages.rs consumes but does not define.
`options_view_password` is the global feature flag read as
`database.options.view_password`; `lookup` is the behaviour of
`get_paste_by_url` for this request (a paste or an error message);
`incrFail` gives, per url, the error message with which
`incr_views_by_url` fails, `none` meaning the increment succeeds;
`counts` is the view-count state read by `get_views_by_url`. -/
structure Database where
  options_view_password : Bool
  lookup : String → Except String Paste
  incrFail : String → Option String
  counts : String → Int

/-- Modelled from the spec: `Store.get_paste_by_identifier`. -/
def Database.get_paste_by_url (db : Database) (url : String) : Except String Paste :=
  db.lookup url

/-- The view-count state after a successful increment of `url`: that key is
one higher, every other key unchanged. -/
def Database.bumpCounts (db : Database) (url : String) : Database :=
  { db with counts := fun u => if u = url then db.counts u + 1 else db.counts u }

/-- Modelled from the spec: `Store.increment_view_count`, which may fail with
a store error; on success the counter for `url` is incremented once. -/
def Database.incr_views_by_url (db : Database) (url : String) : Except String Database :=
  match db.incrFail url with
  | some e => .error e
  | none => .ok (db.bumpCounts url)

/-- Modelled from the spec: `Store.get_view_count`. -/
def Database.get_views_by_url (db : Database) (url : String) : Int :=
  db.counts url

/-- The result variants a handler can produce, one constructor per template
rendered by pages.rs: `PasteViewTemplate`, `PastePasswordTemplate`,
`EditorTemplate`, `ConfigEditorTemplate`, `ErrorViewTemplate`. Each
constructor carries exactly the fields of the corresponding template struct. -/
inductive PageResult where
  | Viewed (paste : Paste) (rendered : String) (title : String) (views : Int)
  | PasswordChallenge (paste : Paste)
  | EditForm (paste : Paste)
  | ConfigForm (paste : Paste) (paste_metadata : String)
  | Error (msg : String)
  deriving Repr, DecidableEq

/-- Whether a result is the password challenge page. -/
def PageResult.isChallenge : PageResult → Bool
  | .PasswordChallenge _ => true
  | _ => false

/-- Modelled from the spec: the textual description of the external
`pastemd::model::PasteError::Other` generic "other" error kind, whose
`to_string()` the config handler uses; the crate is not in src/. -/
def PasteError_Other_message : String := "an unspecified error has occurred"

/-- Translation of `view_paste_request` (src/src/pages.rs lines 61-121).
`render` stands for the external `sauropod` `parse_markdown`; the handler
calls it with an empty extension list. The returned `Database` is the store
state after the request, making the view-count side effect explicit. -/
def view_paste_request (render : String → List String → String)
    (db : Database) (url : String) (query_view_password : String) :
    PageResult × Database :=
  match db.get_paste_by_url url with
  | .ok p =>
    match db.incr_views_by_url p.url with
    | .error e => (.Error e, db)
    | .ok db1 =>
      let proceed : PageResult × Database :=
        (.Viewed p (render p.content [])
          (match p.metadata.title.isEmpty with
            | true => p.url
            | false => p.metadata.title)
          (db1.get_views_by_url p.url), db1)
      if db.options_view_password = true then
        match query_view_password.isEmpty with
        | false =>
          if !p.metadata.view_password.isEmpty
              && query_view_password != p.metadata.view_password then
            (.PasswordChallenge p, db1)
          else proceed
        | true =>
          if !p.metadata.view_password.isEmpty then
            (.PasswordChallenge p, db1)
          else proceed
      else proceed
  | .error e => (.Error e, db)

/-- Translation of `editor_request` (src/src/pages.rs lines 129-165): same
lookup and inline password check, no view-count increment, and on fall-through
the raw paste is put in the editor template (no renderer parameter: the
source never invokes the renderer here). -/
def editor_request (db : Database) (url : String) (query_view_password : String) :
    PageResult × Database :=
  match db.get_paste_by_url url with
  | .ok p =>
    let proceed : PageResult × Database := (.EditForm p, db)
    if db.options_view_password = true then
      match query_view_password.isEmpty with
      | false =>
        if !p.metadata.view_password.isEmpty
            && query_view_password != p.metadata.view_password then
          (.PasswordChallenge p, db)
        else proceed
      | true =>
        if !p.metadata.view_password.isEmpty then
          (.PasswordChallenge p, db)
        else proceed
    else proceed
  | .error e => (.Error e, db)

/-- Translation of `config_editor_request` (src/src/pages.rs lines 174-228).
`serialize` stands for the external `serde_json::to_string` applied to the
metadata; the source discards the serialization error's payload, so the
error type is `Unit`. -/
def config_editor_request (serialize : PasteMetadata → Except Unit String)
    (db : Database) (url : String) (query_view_password : String) :
    PageResult × Database :=
  match db.get_paste_by_url url with
  | .ok p =>
    let proceed : PageResult × Database :=
      match serialize p.metadata with
      | .ok m => (.ConfigForm p m, db)
      | .error _ => (.Error PasteError_Other_message, db)
    if db.options_view_password = true then
      match query_view_password.isEmpty with
      | false =>
        if !p.metadata.view_password.isEmpty
            && query_view_password != p.metadata.view_password then
          (.PasswordChallenge p, db)
        else proceed
      | true =>
        if !p.metadata.view_password.isEmpty then
          (.PasswordChallenge p, db)
        else proceed
    else proceed
  | .error e => (.Error e, db)

/-- Translation of `render_markdown` (src/src/pages.rs lines 236-238): the
stateless render endpoint, always `Ok` of the rendered content with an empty
extension list. -/
def render_markdown (render : String → List String → String)
    (content : String) : Except Unit String :=
  .ok (render content [])

/-- The access decision variants of the spec's Access Policy Evaluator. -/
inductive AccessDecision where
  | Allow
  | Challenge
  deriving Repr, DecidableEq

/-- The Access Policy Evaluator written from the spec's words (spec section
4.1), used only as the shared decision function that the per-handler inline
checks are compared against in the refinement claim. -/
def evaluate (metadata : PasteMetadata) (supplied : String)
    (feature_enabled : Bool) : AccessDecision :=
  if feature_enabled = false then .Allow
  else if metadata.view_password.isEmpty then .Allow
  else if supplied.isEmpty then .Challenge
  else if supplied != metadata.view_password then .Challenge
  else .Allow

/-- The inline password check common to the three handlers, as a single
boolean: `true` exactly when the handler takes its early
`PastePasswordTemplate` return. -/
def challengeCond (flag : Bool) (m : PasteMetadata) (supplied : String) : Bool :=
  flag &&
    (match supplied.isEmpty with
      | false => !m.view_password.isEmpty && supplied != m.view_password
      | true => !m.view_password.isEmpty)

/-! ## Characterization lemmas (shared helpers) -/

theorem view_paste_request_ok (render : String → List String → String)
    (db : Database) (url supplied : String) (p : Paste)
    (hlook : db.lookup url = .ok p) (hincr : db.incrFail p.url = none) :
    view_paste_request render db url supplied =
      if challengeCond db.options_view_password p.metadata supplied then
        (.PasswordChallenge p, db.bumpCounts p.url)
      else
        (.Viewed p (render p.content [])
          (match p.metadata.title.isEmpty with
            | true => p.url
            | false => p.metadata.title)
          ((db.bumpCounts p.url).counts p.url), db.bumpCounts p.url) := by
  unfold view_paste_request Database.get_paste_by_url Database.incr_views_by_url
  rw [hlook]
  simp only [hincr, Database.get_views_by_url]
  rcases Bool.dichotomy supplied.isEmpty with hq | hq <;>
    rcases Bool.dichotomy db.options_view_password with hf | hf <;>
      simp [challengeCond, hq, hf]

theorem editor_request_ok (db : Database) (url supplied : String) (p : Paste)
    (hlook : db.lookup url = .ok p) :
    editor_request db url supplied =
      if challengeCond db.options_view_password p.metadata supplied then
        (.PasswordChallenge p, db)
      else (.EditForm p, db) := by
  unfold editor_request Database.get_paste_by_url
  rw [hlook]
  rcases Bool.dichotomy supplied.isEmpty with hq | hq <;>
    rcases Bool.dichotomy db.options_view_password with hf | hf <;>
      simp [challengeCond, hq, hf]

theorem config_editor_request_ok (serialize : PasteMetadata → Except Unit String)
    (db : Database) (url supplied : String) (p : Paste)
    (hlook : db.lookup url = .ok p) :
    config_editor_request serialize db url supplied =
      if challengeCond db.options_view_password p.metadata supplied then
        (.PasswordChallenge p, db)
      else
        match serialize p.metadata with
        | .ok m => (.ConfigForm p m, db)
        | .error _ => (.Error PasteError_Other_message, db) := by
  unfold config_editor_request Database.get_paste_by_url
  rw [hlook]
  rcases Bool.dichotomy supplied.isEmpty with hq | hq <;>
    rcases Bool.dichotomy db.options_view_password with hf | hf <;>
      simp [challengeCond, hq, hf]

theorem challengeCond_of_nonempty (m : PasteMetadata) (s : String)
    (hpw : m.view_password ≠ "") :
    challengeCond true m s = (s != m.view_password) := by
  unfold challengeCond
  have hpwe : m.view_password.isEmpty = false := by
    cases h : m.view_password.isEmpty
    · rfl
    · exact absurd ((String.isEmpty_iff m.view_password).mp h) hpw
  cases hq : s.isEmpty
  · simp [hpwe]
  · have hs : s = "" := (String.isEmpty_iff s).mp hq
    subst hs
    simp [hpwe, bne, Ne.symm hpw]

theorem challengeCond_false (m : PasteMetadata) (s : String) (flag : Bool)
    (h : flag = false ∨ m.view_password = "") :
    challengeCond flag m s = false := by
  rcases h with h | h
  · simp [challengeCond, h]
  · have hpwe : m.view_password.isEmpty = true := (String.isEmpty_iff m.view_password).mpr h
    unfold challengeCond
    cases hq : s.isEmpty <;> simp [hpwe]

theorem evaluate_challenge_iff (m : PasteMetadata) (s : String) (flag : Bool) :
    evaluate m s flag = .Challenge ↔ challengeCond flag m s = true := by
  unfold evaluate challengeCond
  cases flag <;>
    rcases Bool.dichotomy s.isEmpty with hq | hq <;>
      rcases Bool.dichotomy m.view_password.isEmpty with hpw | hpw <;>
        simp [hq, hpw]

theorem view_paste_request_incr_error (render : String → List String → String)
    (db : Database) (url supplied : String) (p : Paste) (e : String)
    (hlook : db.lookup url = .ok p) (hincr : db.incrFail p.url = some e) :
    view_paste_request render db url supplied = (.Error e, db) := by
  unfold view_paste_request Database.get_paste_by_url Database.incr_views_by_url
  rw [hlook]
  simp only [hincr]

theorem editor_request_lookup_error (db : Database) (url supplied e : String)
    (hlook : db.lookup url = .error e) :
    editor_request db url supplied = (.Error e, db) := by
  unfold editor_request Database.get_paste_by_url
  rw [hlook]

theorem bumpCounts_self (db : Database) (url : String) :
    (db.bumpCounts url).counts url = db.counts url + 1 := by
  simp [Database.bumpCounts]

theorem bumpCounts_other (db : Database) (url u : String) (h : u ≠ url) :
    (db.bumpCounts url).counts u = db.counts u := by
  simp [Database.bumpCounts, h]

/-! ## Concrete fixtures for witnesses and counterexamples -/

/-- A concrete paste with a non-empty view password (the spec's Scenario B
paste, with some content added). -/
def pasteX : Paste :=
  { url := "x", content := "hello", metadata := { title := "", view_password := "s3cret" } }

/-- A concrete renderer standing in for the external markdown renderer. -/
def renderX : String → List String → String := fun s _ => s

/-- A concrete metadata serializer that always succeeds. -/
def serializeOk : PasteMetadata → Except Unit String := fun _ => .ok "serialized-metadata"

/-- A concrete metadata serializer that always fails. -/
def serializeFail : PasteMetadata → Except Unit String := fun _ => .error ()

/-- A concrete database holding `pasteX`, feature flag enabled, increments
succeeding, all counters at 0. -/
def dbX : Database :=
  { options_view_password := true
    lookup := fun u => if u = "x" then .ok pasteX else .error "no paste with this url"
    incrFail := fun _ => none
    counts := fun _ => 0 }

/-- `dbX` with the global view_password feature flag disabled. -/
def dbOff : Database :=
  { dbX with options_view_password := false }

/-- A database whose paste lookup always fails. -/
def dbLookupFail : Database :=
  { options_view_password := true
    lookup := fun _ => .error "store unavailable"
    incrFail := fun _ => none
    counts := fun _ => 0 }

/-- `dbX` with view-count increments failing. -/
def dbIncrFail : Database :=
  { dbX with incrFail := fun _ => some "increment failed" }

/-! ## Claims -/

/-- C1: when the global view_password feature flag is enabled and the paste's
`metadata.view_password` is non-empty, each of the view, edit and edit-config
flows challenges exactly when the supplied credential (absent credentials
arrive as the empty string) differs from `metadata.view_password`, and allows
(does not challenge) exactly when it equals it — exact string equality. -/
theorem c1_password_gate (render : String → List String → String)
    (serialize : PasteMetadata → Except Unit String) (db : Database)
    (url supplied : String) (p : Paste)
    (hlook : db.lookup url = .ok p) (hincr : db.incrFail p.url = none)
    (hflag : db.options_view_password = true)
    (hpw : p.metadata.view_password ≠ "") :
    (view_paste_request render db url supplied).1.isChallenge
      = (supplied != p.metadata.view_password)
    ∧ (editor_request db url supplied).1.isChallenge
      = (supplied != p.metadata.view_password)
    ∧ (config_editor_request serialize db url supplied).1.isChallenge
      = (supplied != p.metadata.view_password) := by
  rw [view_paste_request_ok render db url supplied p hlook hincr,
    editor_request_ok db url supplied p hlook,
    config_editor_request_ok serialize db url supplied p hlook, hflag,
    challengeCond_of_nonempty p.metadata supplied hpw]
  rcases Bool.dichotomy (supplied != p.metadata.view_password) with hne | hne <;>
    rw [hne] <;>
    cases hs : serialize p.metadata <;>
      simp [PageResult.isChallenge, hs]

/-- C1 witness: Scenario D — wrong credential on a password-protected paste
challenges in all three flows. -/
theorem c1_password_gate_witness :
    (view_paste_request renderX dbX "x" "wrong").1.isChallenge
      = ("wrong" != pasteX.metadata.view_password)
    ∧ (editor_request dbX "x" "wrong").1.isChallenge
      = ("wrong" != pasteX.metadata.view_password)
    ∧ (config_editor_request serializeOk dbX "x" "wrong").1.isChallenge
      = ("wrong" != pasteX.metadata.view_password) :=
  c1_password_gate renderX serializeOk dbX "x" "wrong" pasteX rfl rfl rfl (by decide)

/-- C2 counterexample: with the feature enabled, a non-empty password and no
credential supplied, the view flow's password-challenge result carries the
full paste, whose `metadata.view_password` field is exactly the expected
non-empty password — so the data carried by the challenge result does contain
`metadata.view_password`, refuting the claim as stated. -/
theorem c2_counterexample :
    (view_paste_request renderX dbX "x" "").1 = .PasswordChallenge pasteX
    ∧ pasteX.metadata.view_password = "s3cret"
    ∧ ("s3cret" : String) ≠ "" := by
  refine ⟨by rfl, rfl, by decide⟩

/-- C2 amended: whenever any of the three flows produces a PasswordChallenge
result, the data it carries is exactly the looked-up paste, whole — hence it
does contain `metadata.view_password` (equal to the expected password); the
handler attaches nothing beyond the paste, and whether the password is shown
is up to the challenge template, outside this code. -/
theorem c2_challenge_carries_paste (render : String → List String → String)
    (serialize : PasteMetadata → Except Unit String) (db : Database)
    (url supplied : String) (p q : Paste)
    (hlook : db.lookup url = .ok p)
    (hch : (view_paste_request render db url supplied).1 = .PasswordChallenge q
      ∨ (editor_request db url supplied).1 = .PasswordChallenge q
      ∨ (config_editor_request serialize db url supplied).1 = .PasswordChallenge q) :
    q = p ∧ q.metadata.view_password = p.metadata.view_password := by
  have hqp : q = p := by
    rcases hch with h | h | h
    · cases hi : db.incrFail p.url with
      | some e =>
        rw [view_paste_request_incr_error render db url supplied p e hlook hi] at h
        simp at h
      | none =>
        rw [view_paste_request_ok render db url supplied p hlook hi] at h
        rcases Bool.dichotomy (challengeCond db.options_view_password p.metadata supplied)
          with hc | hc <;> rw [hc] at h <;> simp at h
        · exact h.symm
    · rw [editor_request_ok db url supplied p hlook] at h
      rcases Bool.dichotomy (challengeCond db.options_view_password p.metadata supplied)
        with hc | hc <;> rw [hc] at h <;> simp at h
      · exact h.symm
    · rw [config_editor_request_ok serialize db url supplied p hlook] at h
      rcases Bool.dichotomy (challengeCond db.options_view_password p.metadata supplied)
        with hc | hc <;> rw [hc] at h
      · cases hs : serialize p.metadata <;> rw [hs] at h <;> simp at h
      · simp at h
        exact h.symm
  exact ⟨hqp, by rw [hqp]⟩

/-- C2 amended witness: the challenge produced for `pasteX` with no credential
carries `pasteX` itself. -/
theorem c2_challenge_carries_paste_witness :
    pasteX = pasteX ∧ pasteX.metadata.view_password = pasteX.metadata.view_password :=
  c2_challenge_carries_paste renderX serializeOk dbX "x" "" pasteX pasteX rfl
    (Or.inl (by rfl))

/-- C3: the access decision is Allow whenever the feature flag is disabled or
the paste's `view_password` is empty, regardless of the supplied credential:
the view flow does not challenge, the edit flow yields the edit form, and the
config flow does not challenge. -/
theorem c3_allow_when_disabled_or_no_password (render : String → List String → String)
    (serialize : PasteMetadata → Except Unit String) (db : Database)
    (url supplied : String) (p : Paste)
    (hlook : db.lookup url = .ok p) (hincr : db.incrFail p.url = none)
    (hoff : db.options_view_password = false ∨ p.metadata.view_password = "") :
    (view_paste_request render db url supplied).1.isChallenge = false
    ∧ (editor_request db url supplied).1 = .EditForm p
    ∧ (config_editor_request serialize db url supplied).1.isChallenge = false := by
  have hc := challengeCond_false p.metadata supplied db.options_view_password hoff
  rw [view_paste_request_ok render db url supplied p hlook hincr,
    editor_request_ok db url supplied p hlook,
    config_editor_request_ok serialize db url supplied p hlook, hc]
  refine ⟨by simp [PageResult.isChallenge], by simp, ?_⟩
  cases hs : serialize p.metadata <;> simp [PageResult.isChallenge, hs]

/-- C3 witness: with the feature flag disabled, `pasteX` (which has a password
set) is allowed in all three flows even with no credential supplied. -/
theorem c3_allow_witness :
    (view_paste_request renderX dbOff "x" "").1.isChallenge = false
    ∧ (editor_request dbOff "x" "").1 = .EditForm pasteX
    ∧ (config_editor_request serializeOk dbOff "x" "").1.isChallenge = false :=
  c3_allow_when_disabled_or_no_password renderX serializeOk dbOff "x" "" pasteX rfl rfl
    (Or.inl rfl)

/-- C4: in the view flow the increment happens before the access check, so a
request whose outcome is a password challenge has still incremented the
paste's view counter exactly once (that key one higher, all others
unchanged). -/
theorem c4_increment_precedes_challenge (render : String → List String → String)
    (db : Database) (url supplied : String) (p : Paste)
    (hlook : db.lookup url = .ok p) (hincr : db.incrFail p.url = none)
    (hch : (view_paste_request render db url supplied).1.isChallenge = true) :
    (view_paste_request render db url supplied).2.counts p.url = db.counts p.url + 1
    ∧ ∀ u, u ≠ p.url → (view_paste_request render db url supplied).2.counts u = db.counts u := by
  rw [view_paste_request_ok render db url supplied p hlook hincr]
  rcases Bool.dichotomy (challengeCond db.options_view_password p.metadata supplied)
    with hc | hc <;> rw [hc] <;> simp <;>
    exact ⟨bumpCounts_self db p.url, fun u hu => bumpCounts_other db p.url u hu⟩

/-- C4 witness: a challenged view of `pasteX` still bumped its counter from 0
to 1 and left another key untouched. -/
theorem c4_increment_precedes_challenge_witness :
    (view_paste_request renderX dbX "x" "").2.counts pasteX.url = dbX.counts pasteX.url + 1
    ∧ (view_paste_request renderX dbX "x" "").2.counts "y" = dbX.counts "y" :=
  ⟨(c4_increment_precedes_challenge renderX dbX "x" "" pasteX rfl rfl (by rfl)).1,
   (c4_increment_precedes_challenge renderX dbX "x" "" pasteX rfl rfl (by rfl)).2 "y"
     (by decide)⟩

/-- C5: if the paste lookup fails, the view flow returns an Error carrying the
store's error message and the store is untouched: no increment is attempted,
no access evaluation, no rendering. -/
theorem c5_lookup_failure (render : String → List String → String)
    (db : Database) (url supplied e : String)
    (hlook : db.lookup url = .error e) :
    view_paste_request render db url supplied = (.Error e, db) := by
  unfold view_paste_request Database.get_paste_by_url
  rw [hlook]

/-- C5 witness: a failing lookup yields exactly the store's message and an
unchanged database. -/
theorem c5_lookup_failure_witness :
    view_paste_request renderX dbLookupFail "x" "" = (.Error "store unavailable", dbLookupFail) :=
  c5_lookup_failure renderX dbLookupFail "x" "" "store unavailable" rfl

/-- C6: if the lookup succeeds but the view-count increment fails, the view
flow returns an Error carrying the increment failure's message — for every
credential, including one equal to the paste's password — and no rendering
happens (the result is the error page, the store unchanged). -/
theorem c6_increment_failure (render : String → List String → String)
    (db : Database) (url supplied : String) (p : Paste) (e : String)
    (hlook : db.lookup url = .ok p) (hincr : db.incrFail p.url = some e) :
    view_paste_request render db url supplied = (.Error e, db) := by
  unfold view_paste_request Database.get_paste_by_url Database.incr_views_by_url
  rw [hlook]
  simp only [hincr]

/-- C6 witness: with the correct credential supplied, a failing increment
still produces the increment error. -/
theorem c6_increment_failure_witness :
    view_paste_request renderX dbIncrFail "x" "s3cret" = (.Error "increment failed", dbIncrFail) :=
  c6_increment_failure renderX dbIncrFail "x" "s3cret" pasteX "increment failed" rfl rfl

/-- C7: every view request that produces a Viewed result incremented the
paste's counter exactly once (that key one higher, all others unchanged), the
reported count is the value read after that increment (it includes this
request's own increment), and the display title is `metadata.title` when
non-empty, else the paste identifier. -/
theorem c7_viewed_count_and_title (render : String → List String → String)
    (db : Database) (url supplied : String) (p q : Paste)
    (rendered title : String) (views : Int) (db2 : Database)
    (hlook : db.lookup url = .ok p)
    (hview : view_paste_request render db url supplied
      = (.Viewed q rendered title views, db2)) :
    q = p
    ∧ views = db.counts p.url + 1
    ∧ db2.counts p.url = db.counts p.url + 1
    ∧ (∀ u, u ≠ p.url → db2.counts u = db.counts u)
    ∧ title = (if p.metadata.title.isEmpty then p.url else p.metadata.title) := by
  cases hi : db.incrFail p.url with
  | some e =>
    rw [view_paste_request_incr_error render db url supplied p e hlook hi] at hview
    simp at hview
  | none =>
    rw [view_paste_request_ok render db url supplied p hlook hi] at hview
    rcases Bool.dichotomy (challengeCond db.options_view_password p.metadata supplied)
      with hc | hc <;> rw [hc] at hview
    · simp at hview
      obtain ⟨⟨hq, hr, ht, hv⟩, hdb⟩ := hview
      subst hdb
      refine ⟨hq.symm, ?_, bumpCounts_self db p.url,
        fun u hu => bumpCounts_other db p.url u hu, ?_⟩
      · rw [← hv, bumpCounts_self]
      · rcases Bool.dichotomy p.metadata.title.isEmpty with htt | htt <;>
          simp only [htt] at ht <;> simp [htt, ← ht]
    · simp at hview

/-- C7 witness: Scenario C — correct credential on `pasteX` yields a Viewed
result whose count 1 is the counter (0) after one increment, with the paste
identifier as title since `metadata.title` is empty. -/
theorem c7_viewed_count_and_title_witness :
    pasteX = pasteX
    ∧ (1 : Int) = dbX.counts pasteX.url + 1
    ∧ (dbX.bumpCounts "x").counts pasteX.url = dbX.counts pasteX.url + 1
    ∧ (∀ u, u ≠ pasteX.url → (dbX.bumpCounts "x").counts u = dbX.counts u)
    ∧ "x" = (if pasteX.metadata.title.isEmpty then pasteX.url else pasteX.metadata.title) :=
  c7_viewed_count_and_title renderX dbX "x" "s3cret" pasteX pasteX "hello" "x" 1
    (dbX.bumpCounts "x") rfl (by rfl)

/-- C8: the edit flow never touches the view counter — the store it returns is
the one it was given, on every path — and when the lookup succeeds and the
decision is Allow (no challenge) the result is the EditForm carrying the raw
paste; the handler takes no renderer at all, so nothing is rendered. -/
theorem c8_edit_never_increments (db : Database) (url supplied : String) :
    (editor_request db url supplied).2 = db
    ∧ ∀ p, db.lookup url = .ok p →
      (editor_request db url supplied).1.isChallenge = false →
      (editor_request db url supplied).1 = .EditForm p := by
  constructor
  · cases hl : db.lookup url with
    | error e => rw [editor_request_lookup_error db url supplied e hl]
    | ok p =>
      rw [editor_request_ok db url supplied p hl]
      rcases Bool.dichotomy (challengeCond db.options_view_password p.metadata supplied)
        with hc | hc <;> rw [hc] <;> simp
  · intro p hl hnc
    rw [editor_request_ok db url supplied p hl] at hnc ⊢
    rcases Bool.dichotomy (challengeCond db.options_view_password p.metadata supplied)
      with hc | hc <;> rw [hc] at hnc ⊢ <;> simp_all [PageResult.isChallenge]

/-- C8 witness: editing `pasteX` with the correct credential leaves the store
untouched and yields the raw edit form. -/
theorem c8_edit_never_increments_witness :
    (editor_request dbX "x" "s3cret").2 = dbX
    ∧ (editor_request dbX "x" "s3cret").1 = .EditForm pasteX :=
  ⟨(c8_edit_never_increments dbX "x" "s3cret").1,
   (c8_edit_never_increments dbX "x" "s3cret").2 pasteX rfl (by rfl)⟩

/-- C9: in the edit-config flow, on an Allow decision (the inline check does
not challenge): a failing metadata serialization yields the Error page with
the generic "other" error message, and a successful one yields the ConfigForm
carrying the paste and the serialized metadata string. -/
theorem c9_config_serialization (serialize : PasteMetadata → Except Unit String)
    (db : Database) (url supplied : String) (p : Paste)
    (hlook : db.lookup url = .ok p)
    (hallow : challengeCond db.options_view_password p.metadata supplied = false) :
    (serialize p.metadata = .error () →
      config_editor_request serialize db url supplied = (.Error PasteError_Other_message, db))
    ∧ ∀ m, serialize p.metadata = .ok m →
      config_editor_request serialize db url supplied = (.ConfigForm p m, db) := by
  rw [config_editor_request_ok serialize db url supplied p hlook, hallow]
  exact ⟨fun hs => by simp [hs], fun m hs => by simp [hs]⟩

/-- C9 witness: with the correct credential, the succeeding serializer gives
the config form and the failing one gives the generic "other" error. -/
theorem c9_config_serialization_witness :
    config_editor_request serializeOk dbX "x" "s3cret"
      = (.ConfigForm pasteX "serialized-metadata", dbX)
    ∧ config_editor_request serializeFail dbX "x" "s3cret"
      = (.Error PasteError_Other_message, dbX) :=
  ⟨(c9_config_serialization serializeOk dbX "x" "s3cret" pasteX rfl (by rfl)).2
      "serialized-metadata" rfl,
   (c9_config_serialization serializeFail dbX "x" "s3cret" pasteX rfl (by rfl)).1 rfl⟩

/-- C10: the three flows apply one and the same access decision — for every
paste, credential and feature-flag state (lookup and increment succeeding),
the view flow challenges exactly when the edit flow does and exactly when the
edit-config flow does, and all of them challenge exactly when the spec's
shared Access Policy Evaluator says Challenge. -/
theorem c10_single_shared_decision (render : String → List String → String)
    (serialize : PasteMetadata → Except Unit String) (db : Database)
    (url supplied : String) (p : Paste)
    (hlook : db.lookup url = .ok p) (hincr : db.incrFail p.url = none) :
    (view_paste_request render db url supplied).1.isChallenge
      = (editor_request db url supplied).1.isChallenge
    ∧ (editor_request db url supplied).1.isChallenge
      = (config_editor_request serialize db url supplied).1.isChallenge
    ∧ ((view_paste_request render db url supplied).1.isChallenge = true
      ↔ evaluate p.metadata supplied db.options_view_password = .Challenge) := by
  rw [view_paste_request_ok render db url supplied p hlook hincr,
    editor_request_ok db url supplied p hlook,
    config_editor_request_ok serialize db url supplied p hlook]
  rcases Bool.dichotomy (challengeCond db.options_view_password p.metadata supplied)
    with hc | hc <;> rw [hc]
  · cases hs : serialize p.metadata <;>
      simp [PageResult.isChallenge, evaluate_challenge_iff, hc, hs]
  · simp [PageResult.isChallenge,
      (evaluate_challenge_iff p.metadata supplied db.options_view_password).mpr hc]

/-- C10 witness: for `pasteX` with no credential, all three flows challenge
and the shared Evaluator says Challenge. -/
theorem c10_single_shared_decision_witness :
    (view_paste_request renderX dbX "x" "").1.isChallenge
      = (editor_request dbX "x" "").1.isChallenge
    ∧ (editor_request dbX "x" "").1.isChallenge
      = (config_editor_request serializeOk dbX "x" "").1.isChallenge
    ∧ ((view_paste_request renderX dbX "x" "").1.isChallenge = true
      ↔ evaluate pasteX.metadata "" dbX.options_view_password = .Challenge) :=
  c10_single_shared_decision renderX serializeOk dbX "x" "" pasteX rfl rfl

end Sealable
